import Mathlib

/-!
Shallow embedding of `src/pydenticai/ai_agent.py` (EmojAI).

The program is a single Python file: a pydantic model `EmojiSuggestion`
with a length validator, a keyword-table sentiment analyzer
(`SentimentAnalyzer.detect_sentiment` / `get_emojis`), an HTTP client
(`GeminiClient.generate`) whose every failure is collapsed into one
error kind, and an orchestrator (`AIAgent.suggest_emojis`) that falls
back to a static emoji table when the generation path fails.

Modelling conventions:
  * Python strings are Lean `String`s; `str.lower()` is modelled
    character-wise with `Char.toLower` (the trigger keywords are all
    ASCII, where the two functions agree).
  * `keyword in msg` (substring test) is `strContains`.
  * `str.split()` (split on whitespace runs, no empty tokens) is
    `pySplit`; `str.strip()` is `pyStrip`.
  * Python dicts (`emoji_library`, `sentiment_map`) are association
    lists in insertion order; iteration over `.items()` and `dict.get`
    follow that order, matching Python dict semantics.
  * Exceptions are `Except String`; a `try/except` is a `match` on the
    `Except` value.
  * The source file stores its emoji as mojibake (UTF-8 emoji bytes
    re-decoded as code points); the string values below are exactly the
    code-point sequences Python obtains when loading the file, written
    with explicit escapes.
  * The HTTP exchange of `GeminiClient.generate` is abstracted as an
    input `HttpOutcome`: either a transport-level failure (network
    error, timeout) or a response with a status code and a parsed JSON
    body (`none` = body is not valid JSON).  `response.raise_for_status()`
    raises exactly for statuses 400..599.
-/

namespace EmojAI

/-- `needle.isPrefix haystack` on character lists. -/
def startsWithL : List Char → List Char → Bool
  | [], _ => true
  | _ :: _, [] => false
  | a :: as, b :: bs => a == b && startsWithL as bs

/-- Substring containment on character lists (Python `needle in haystack`). -/
def containsSub (needle : List Char) : List Char → Bool
  | [] => startsWithL needle []
  | c :: rest => startsWithL needle (c :: rest) || containsSub needle rest

/-- Python `needle in haystack` for strings. -/
def strContains (haystack needle : String) : Bool :=
  containsSub needle.toList haystack.toList

/-- Python `str.lower()`, character-wise (agrees with Python on ASCII,
which covers every trigger keyword in the table). -/
def pyLower (s : String) : String :=
  String.mk (s.toList.map Char.toLower)

/-- Worker for Python `str.split()`: split on runs of whitespace,
producing no empty tokens.  `acc` is the current token, reversed. -/
def splitAux : List Char → List Char → List (List Char)
  | [], acc => if acc.isEmpty then [] else [acc.reverse]
  | c :: rest, acc =>
    if c.isWhitespace then
      if acc.isEmpty then splitAux rest [] else acc.reverse :: splitAux rest []
    else
      splitAux rest (c :: acc)

/-- Python `str.split()` with no arguments. -/
def pySplit (s : String) : List String :=
  (splitAux s.toList []).map fun cs => String.mk cs

/-- Python `str.strip()`: drop leading and trailing whitespace. -/
def pyStrip (s : String) : String :=
  String.mk (((s.toList.dropWhile Char.isWhitespace).reverse.dropWhile
    Char.isWhitespace).reverse)

/-- The pydantic model `EmojiSuggestion(BaseModel)`: a list of emoji
strings and the original message. -/
structure EmojiSuggestion where
  emojis : List String
  message : String
  deriving DecidableEq, Repr

/-- `EmojiSuggestion.validate_emojis`: raise `ValueError` when fewer
than 3 emojis are supplied, otherwise keep the first 20 (`v[:20]`). -/
def validate_emojis (v : List String) : Except String (List String) :=
  if v.length < 3 then Except.error "At least 3 emojis required"
  else Except.ok (v.take 20)

/-- Constructing `EmojiSuggestion(emojis=..., message=...)`: pydantic
runs the field validator; a `ValueError` there becomes a
`ValidationError` of the construction. -/
def mkEmojiSuggestion (emojis : List String) (message : String) :
    Except String EmojiSuggestion :=
  (validate_emojis emojis).map fun v => ⟨v, message⟩

/-- `emoji_library['happy']` (mojibake code points exactly as Python
reads them from the file). -/
def happy_emojis : List String :=
  ["\u00F0\u0178\u02DC\u20AC",
   "\u00F0\u0178\u02DC\u0192",
   "\u00F0\u0178\u02DC\u201E",
   "\u00F0\u0178\u02DC",
   "\u00F0\u0178\u02DC\u2020",
   "\u00F0\u0178\u00A5\u00B9",
   "\u00F0\u0178\u02DC\u2026",
   "\u00F0\u0178\u02DC\u201A",
   "\u00F0\u0178\u00A4\u00A3",
   "\u00F0\u0178\u00A5\u00B2"]

/-- `emoji_library['sad']`. -/
def sad_emojis : List String :=
  ["\u00F0\u0178\u02DC\u00A2",
   "\u00F0\u0178\u02DC\u00AD",
   "\u00F0\u0178\u02DC\u00A4",
   "\u00F0\u0178\u02DC\u00A0",
   "\u00F0\u0178\u02DC\u00A1",
   "\u00F0\u0178\u00A4\u00AC",
   "\u00F0\u0178\u00A4\u00AF",
   "\u00F0\u0178\u02DC\u00B3",
   "\u00F0\u0178\u00A5\u00BA",
   "\u00F0\u0178\u02DC\u00A5"]

/-- `emoji_library['love']`. -/
def love_emojis : List String :=
  ["\u00F0\u0178\u00A5\u00B0",
   "\u00F0\u0178\u02DC",
   "\u00E2\u00A4\u00EF\u00B8",
   "\u00F0\u0178\u00A7\u00A1",
   "\u00F0\u0178\u2019\u203A",
   "\u00F0\u0178\u2019\u0161",
   "\u00F0\u0178\u2019\u2122",
   "\u00F0\u0178\u2019\u0153",
   "\u00F0\u0178\u00A4\u017D",
   "\u00F0\u0178\u2013\u00A4"]

/-- `emoji_library['excited']`. -/
def excited_emojis : List String :=
  ["\u00F0\u0178\u00A4\u00A9",
   "\u00F0\u0178\u00A5\u00B3",
   "\u00F0\u0178\u02DC\u017D",
   "\u00F0\u0178\u00A4\u00A0",
   "\u00F0\u0178\u02DC",
   "\u00F0\u0178\u02DC\u00B8",
   "\u00F0\u0178\u02DC\u00B9",
   "\u00F0\u0178\u02DC\u00BA",
   "\u00F0\u0178\u02DC\u00BB",
   "\u00F0\u0178\u02DC\u00BC"]

/-- `emoji_library['greeting']`. -/
def greeting_emojis : List String :=
  ["\u00F0\u0178\u2018\u2039",
   "\u00F0\u0178\u00A4\u0161",
   "\u00F0\u0178\u2013\u00EF\u00B8",
   "\u00E2\u0153\u2039",
   "\u00F0\u0178\u2013\u2013",
   "\u00F0\u0178\u2018\u0152",
   "\u00F0\u0178\u00A4",
   "\u00E2\u0153\u0152\u00EF\u00B8",
   "\u00F0\u0178\u00A4\u017E",
   "\u00F0\u0178\u00A4\u0178"]

/-- `emoji_library['neutral']`. -/
def neutral_emojis : List String :=
  ["\u00F0\u0178\u02DC",
   "\u00F0\u0178\u02DC\u2018",
   "\u00F0\u0178\u02DC\u00B6",
   "\u00F0\u0178\u00AB\u00A5",
   "\u00F0\u0178\u02DC\u00B6\u00E2\u20AC\u00F0\u0178\u0152\u00AB\u00EF\u00B8",
   "\u00F0\u0178\u2122\u201E",
   "\u00F0\u0178\u02DC",
   "\u00F0\u0178\u02DC\u2019",
   "\u00F0\u0178\u00A4\u00A8",
   "\u00F0\u0178\u00A7"]

/-- `SentimentAnalyzer.emoji_library`, in declaration order.  Note that
there is no entry for the sentiment value `"confused"`. -/
def emoji_library : List (String × List String) :=
  [("happy", happy_emojis), ("sad", sad_emojis), ("love", love_emojis),
   ("excited", excited_emojis), ("greeting", greeting_emojis),
   ("neutral", neutral_emojis)]

/-- `SentimentAnalyzer.sentiment_map`, in declaration order. -/
def sentiment_map : List (String × List String) :=
  [("happy", ["happy", "joy", "good", "great", "awesome"]),
   ("sad", ["sad", "bad", "upset", "unhappy"]),
   ("love", ["love", "heart", "adore", "cherish"]),
   ("excited", ["excited", "wow", "amazing", "thrilled"]),
   ("greeting", ["hello", "hi", "hey", "greetings"])]

/-- One step of the loop body of `detect_sentiment`:
`any(keyword in lower_msg for keyword in keywords)`. -/
def matchesCat (message : String) (p : String × List String) : Bool :=
  p.2.any fun kw => strContains (pyLower message) kw

/-- `SentimentAnalyzer.detect_sentiment`: scan `sentiment_map` in
declaration order, return the first category with a matching keyword;
otherwise `'confused'` when the (original) message contains `?`, else
`'neutral'`. -/
def detect_sentiment (message : String) : String :=
  match sentiment_map.find? (matchesCat message) with
  | some p => p.1
  | none => if strContains message "?" then "confused" else "neutral"

/-- Keyed read of `emoji_library` (`self.emoji_library[s]` succeeds
exactly when this is `some`). -/
def libLookup (s : String) : Option (List String) :=
  (emoji_library.find? fun p => p.1 == s).map Prod.snd

/-- `SentimentAnalyzer.get_emojis`:
`self.emoji_library.get(sentiment, self.emoji_library['neutral'])`.
The default is the library entry for `'neutral'`, i.e. `neutral_emojis`. -/
def get_emojis (sentiment : String) : List String :=
  (libLookup sentiment).getD neutral_emojis

/-- The prompt f-string built by `AIAgent.suggest_emojis`. -/
def mkPrompt (sentiment message : String) : String :=
  "Suggest 10 emojis for this " ++ sentiment ++ " message: \x27" ++ message ++
    "\x27. Return only emojis separated by spaces."

/-- The `try` block of `AIAgent.suggest_emojis`, parameterized by the
generation client `gen` (prompt to raw text, `Except.error` = any
raised exception): detect the sentiment, build the prompt, call the
client, split the response on whitespace (`response.strip().split()`),
and construct the suggestion from the first 15 tokens (`emojis[:15]`). -/
def attempt_generate (gen : String → Except String String) (message : String) :
    Except String EmojiSuggestion :=
  match gen (mkPrompt (detect_sentiment message) message) with
  | Except.error e => Except.error e
  | Except.ok response =>
      mkEmojiSuggestion ((pySplit (pyStrip response)).take 15) message

/-- `AIAgent.suggest_emojis`: any failure of the `try` block lands in
the `except` branch, which re-detects the sentiment and builds the
suggestion from the static library. -/
def suggest_emojis (gen : String → Except String String) (message : String) :
    Except String EmojiSuggestion :=
  match attempt_generate gen message with
  | Except.ok s => Except.ok s
  | Except.error _ =>
      mkEmojiSuggestion (get_emojis (detect_sentiment message)) message

/-- JSON values, for the response body of the generation endpoint. -/
inductive Json where
  | null
  | bool (b : Bool)
  | num (n : Int)
  | str (s : String)
  | arr (elems : List Json)
  | obj (fields : List (String × Json))

/-- Python `data[k]` on a parsed JSON value: succeeds only on objects
having the key (on any other value the subscript raises, which the
`except` clause of `generate` turns into a failure). -/
def jGet (j : Json) (k : String) : Option Json :=
  match j with
  | Json.obj fields => (fields.find? fun p => p.1 == k).map Prod.snd
  | _ => none

/-- Python `data[n]` for an integer index: succeeds only on arrays that
are long enough. -/
def jIdx (j : Json) (n : Nat) : Option Json :=
  match j with
  | Json.arr elems => elems.get? n
  | _ => none

/-- `data["candidates"][0]["content"]["parts"][0]["text"]`:
`some` exactly when the body has the expected nested shape. -/
def extractText (data : Json) : Option Json :=
  ((((jGet data "candidates").bind fun c => jIdx c 0).bind
      fun c => jGet c "content").bind
    fun c => jGet c "parts").bind
    fun p => (jIdx p 0).bind fun q => jGet q "text"

/-- The observable outcome of the HTTP POST issued by
`GeminiClient.generate`: either a transport-level error (network
failure, timeout) or a response carrying a status code and its parsed
JSON body (`none` when the body is not valid JSON). -/
inductive HttpOutcome where
  | transportError (cause : String)
  | response (status : Nat) (body : Option Json)

/-- `requests.Response.raise_for_status` raises exactly for
4xx and 5xx status codes. -/
def raiseForStatusFails (status : Nat) : Bool :=
  400 ≤ status && status < 600

/-- `response.json()` followed by the nested field extraction: a body
that is not valid JSON raises, a body lacking the expected shape raises,
otherwise the text field is returned. -/
def parseBody (body : Option Json) : Except String Json :=
  match body with
  | none => Except.error "API request failed: response body is not valid JSON"
  | some data =>
      match extractText data with
      | none => Except.error "API request failed: missing candidates, content, parts or text"
      | some t => Except.ok t

/-- `GeminiClient.generate`: every exception inside the `try` block is
re-raised as the single failure kind `ValueError("API request failed:
...")` carrying a cause string; on success the nested text field is
returned. -/
def generate (outcome : HttpOutcome) : Except String Json :=
  match outcome with
  | HttpOutcome.transportError cause =>
      Except.error ("API request failed: " ++ cause)
  | HttpOutcome.response status body =>
      if raiseForStatusFails status then
        Except.error ("API request failed: HTTP error status " ++ toString status)
      else
        parseBody body

/-! ## Helper lemmas -/

/-- `find?` returns the marked element when everything before it fails
the predicate and it satisfies the predicate. -/
theorem find?_append_first {α : Type} (pre : List α) (c : α) (post : List α)
    (p : α → Bool) (hc : p c = true) (hpre : ∀ q ∈ pre, p q = false) :
    (pre ++ c :: post).find? p = some c := by
  induction pre with
  | nil => simp [List.find?, hc]
  | cons a as ih =>
      have ha : p a = false := hpre a (List.mem_cons_self a as)
      simp only [List.cons_append, List.find?, ha]
      exact ih fun q hq => hpre q (List.mem_cons_of_mem a hq)

/-- Every list in the emoji library has exactly 10 entries. -/
theorem emoji_library_lists_length : ∀ p ∈ emoji_library, p.2.length = 10 := by
  decide

/-- `get_emojis` always returns a 10-element list (a library entry or
the neutral default). -/
theorem get_emojis_len (s : String) : (get_emojis s).length = 10 := by
  unfold get_emojis libLookup
  cases hf : emoji_library.find? fun p => p.1 == s with
  | none => rfl
  | some p =>
      simpa using emoji_library_lists_length p (List.mem_of_find?_eq_some hf)

/-- A list of at least 3 emojis passes validation; the constructed
suggestion keeps its first 20 entries and the message verbatim. -/
theorem mk_ok_of_three_le (v : List String) (m : String) (h : 3 ≤ v.length) :
    mkEmojiSuggestion v m = Except.ok ⟨v.take 20, m⟩ := by
  unfold mkEmojiSuggestion validate_emojis
  rw [if_neg (by omega)]
  rfl

/-- `splitAux` never emits an empty token. -/
theorem splitAux_tokens_ne_nil (l : List Char) :
    ∀ (acc : List Char), ∀ t ∈ splitAux l acc, t ≠ [] := by
  induction l with
  | nil =>
      intro acc t ht
      unfold splitAux at ht
      by_cases hacc : acc.isEmpty
      · simp [hacc] at ht
      · simp only [hacc, if_neg, Bool.false_eq_true, not_false_eq_true,
          List.mem_singleton] at ht
        subst ht
        simpa [List.isEmpty_iff] using hacc
  | cons c rest ih =>
      intro acc t ht
      unfold splitAux at ht
      by_cases hws : c.isWhitespace
      · simp only [hws, if_true] at ht
        by_cases hacc : acc.isEmpty
        · simp only [hacc, if_true] at ht
          exact ih [] t ht
        · simp only [hacc, Bool.false_eq_true, if_false, List.mem_cons] at ht
          rcases ht with ht | ht
          · subst ht
            simpa [List.isEmpty_iff] using hacc
          · exact ih [] t ht
      · simp only [hws, Bool.false_eq_true, if_false] at ht
        exact ih (c :: acc) t ht

/-- Python `str.split()` produces only non-empty tokens. -/
theorem pySplit_ne_empty (s : String) (t : String) (ht : t ∈ pySplit s) :
    t ≠ "" := by
  unfold pySplit at ht
  rcases List.mem_map.mp ht with ⟨cs, hcs, rfl⟩
  have hne : cs ≠ [] := splitAux_tokens_ne_nil s.toList [] cs hcs
  intro he
  apply hne
  have : (String.mk cs).data = ("" : String).data := by rw [he]
  simpa using this

/-! ## Claim theorems -/

/-- C1: for every generation client and every input message,
`suggest_emojis` returns an `EmojiSuggestion` and never fails: any
failure of the generation attempt (including validation failure of the
generated emoji list) is absorbed by the fallback path, whose own
construction always succeeds. -/
theorem suggest_never_fails (gen : String → Except String String)
    (message : String) :
    ∃ s, suggest_emojis gen message = Except.ok s := by
  cases ha : attempt_generate gen message with
  | ok s =>
      exact ⟨s, by unfold suggest_emojis; rw [ha]⟩
  | error e =>
      refine ⟨⟨(get_emojis (detect_sentiment message)).take 20, message⟩, ?_⟩
      unfold suggest_emojis
      rw [ha]
      exact mk_ok_of_three_le _ _ (by rw [get_emojis_len]; omega)

/-- C2 counterexample: a 21-element emoji list lies outside the range
3..20, yet construction does not fail with a validation error — it
succeeds and silently truncates to the first 20. -/
theorem emoji_suggestion_overlong_accepted :
    20 < (List.replicate 21 "x").length ∧
    mkEmojiSuggestion (List.replicate 21 "x") "m" =
      Except.ok ⟨List.replicate 20 "x", "m"⟩ :=
  ⟨by decide, rfl⟩

/-- C2 (amended): construction fails with a validation error exactly
when fewer than 3 emojis are supplied; every successfully constructed
`EmojiSuggestion` has between 3 and 20 emojis, and they are exactly the
first 20 supplied ones in the supplied order (no deduplication or
re-sorting), with the message kept verbatim. -/
theorem emoji_suggestion_validation (v : List String) (m : String) :
    ((∃ e, mkEmojiSuggestion v m = Except.error e) ↔ v.length < 3) ∧
    (∀ s, mkEmojiSuggestion v m = Except.ok s →
      3 ≤ s.emojis.length ∧ s.emojis.length ≤ 20 ∧
        s.emojis = v.take 20 ∧ s.message = m) := by
  by_cases h : v.length < 3
  · constructor
    · constructor
      · intro _; exact h
      · intro _
        refine ⟨"At least 3 emojis required", ?_⟩
        unfold mkEmojiSuggestion validate_emojis
        rw [if_pos h]
        rfl
    · intro s hs
      unfold mkEmojiSuggestion validate_emojis at hs
      rw [if_pos h] at hs
      exact absurd hs (by simp [Except.map])
  · have hok := mk_ok_of_three_le v m (by omega)
    constructor
    · constructor
      · rintro ⟨e, he⟩
        rw [hok] at he
        exact absurd he (by simp)
      · intro hlt; exact absurd hlt h
    · intro s hs
      rw [hok] at hs
      cases hs
      refine ⟨?_, ?_, rfl, rfl⟩
      · simp only [List.length_take]
        omega
      · simp only [List.length_take]
        omega

/-- C2 witness: the amended theorem applied to a concrete 4-element
construction. -/
theorem emoji_suggestion_validation_witness :
    3 ≤ (EmojiSuggestion.mk ["a", "b", "c", "d"] "m").emojis.length ∧
    (EmojiSuggestion.mk ["a", "b", "c", "d"] "m").emojis.length ≤ 20 ∧
    (EmojiSuggestion.mk ["a", "b", "c", "d"] "m").emojis =
      (["a", "b", "c", "d"] : List String).take 20 ∧
    (EmojiSuggestion.mk ["a", "b", "c", "d"] "m").message = "m" :=
  (emoji_suggestion_validation ["a", "b", "c", "d"] "m").2
    ⟨["a", "b", "c", "d"], "m"⟩ rfl

/-- C3: constructing with 2 emojis fails with a validation error;
constructing with exactly 20 succeeds keeping all 20 in order;
constructing with 21 succeeds and keeps exactly the first 20. -/
theorem emoji_suggestion_boundary_cases (v2 v20 v21 : List String)
    (m : String) (h2 : v2.length = 2) (h20 : v20.length = 20)
    (h21 : v21.length = 21) :
    (∃ e, mkEmojiSuggestion v2 m = Except.error e) ∧
    mkEmojiSuggestion v20 m = Except.ok ⟨v20, m⟩ ∧
    mkEmojiSuggestion v21 m = Except.ok ⟨v21.take 20, m⟩ := by
  refine ⟨⟨"At least 3 emojis required", ?_⟩, ?_, ?_⟩
  · unfold mkEmojiSuggestion validate_emojis
    rw [if_pos (by omega)]
    rfl
  · have hok := mk_ok_of_three_le v20 m (by omega)
    rwa [List.take_of_length_le (by omega)] at hok
  · exact mk_ok_of_three_le v21 m (by omega)

/-- C3 witness: the boundary cases at concrete lists of lengths 2, 20
and 21. -/
theorem emoji_suggestion_boundary_cases_witness :
    (∃ e, mkEmojiSuggestion (List.replicate 2 "y") "m" = Except.error e) ∧
    mkEmojiSuggestion (List.replicate 20 "y") "m" =
      Except.ok ⟨List.replicate 20 "y", "m"⟩ ∧
    mkEmojiSuggestion (List.replicate 21 "y") "m" =
      Except.ok ⟨(List.replicate 21 "y").take 20, "m"⟩ :=
  emoji_suggestion_boundary_cases (List.replicate 2 "y")
    (List.replicate 20 "y") (List.replicate 21 "y") "m"
    (by decide) (by decide) (by decide)

/-- C5: when no trigger keyword of any category occurs in the
lower-cased message, `detect_sentiment` returns `"confused"` if the
message contains a literal `?` and `"neutral"` otherwise. -/
theorem detect_sentiment_no_match (message : String)
    (h : ∀ q ∈ sentiment_map, matchesCat message q = false) :
    detect_sentiment message =
      if strContains message "?" then "confused" else "neutral" := by
  unfold detect_sentiment
  rw [List.find?_eq_none.mpr fun x hx => by rw [h x hx]; exact Bool.false_ne_true]

/-- C5 witness: `"banana"` (no keyword, no `?`) is neutral, and
`"wat is dis?"` (no keyword, contains `?`) is confused. -/
theorem detect_sentiment_no_match_witness :
    detect_sentiment "banana" = "neutral" ∧
    detect_sentiment "wat is dis?" = "confused" := by
  constructor
  · rw [detect_sentiment_no_match "banana" (by decide)]
    decide
  · rw [detect_sentiment_no_match "wat is dis?" (by decide)]
    decide

/-- C6: for every sentiment value — in particular each member of the
closed set `happy, sad, love, excited, greeting, confused, neutral` —
the library lookup used by the fallback path returns a list of length
at least 3, so the fallback construction of an `EmojiSuggestion` can
never fail. -/
theorem fallback_library_sufficient (s : String) (m : String) :
    3 ≤ (get_emojis s).length ∧
    ∃ r, mkEmojiSuggestion (get_emojis s) m = Except.ok r := by
  have hlen := get_emojis_len s
  exact ⟨by omega, ⟨_, mk_ok_of_three_le _ _ (by omega)⟩⟩

/-- C4: `detect_sentiment` matches against the lower-cased message and
scans `sentiment_map` in its fixed declaration order
(happy, sad, love, excited, greeting), returning the first category one
of whose trigger substrings occurs in the lower-cased message; in
particular, for a message matching keywords of two categories the
earlier-declared one wins. -/
theorem detect_sentiment_first_match (message : String)
    (pre post : List (String × List String)) (c : String × List String)
    (hsplit : sentiment_map = pre ++ c :: post)
    (hc : matchesCat message c = true)
    (hpre : ∀ q ∈ pre, matchesCat message q = false) :
    sentiment_map.map Prod.fst =
      ["happy", "sad", "love", "excited", "greeting"] ∧
    detect_sentiment message = c.1 := by
  refine ⟨by decide, ?_⟩
  unfold detect_sentiment
  rw [hsplit, find?_append_first pre c post (matchesCat message) hc hpre]

/-- C4 witness: `"feeling sad but happy"` matches both the happy and
the sad keyword lists and classifies as the earlier-declared `"happy"`;
`"so sad"` matches no earlier category and classifies as `"sad"`. -/
theorem detect_sentiment_first_match_witness :
    detect_sentiment "feeling sad but happy" = "happy" ∧
    detect_sentiment "so sad" = "sad" := by
  constructor
  · exact (detect_sentiment_first_match "feeling sad but happy" []
      [("sad", ["sad", "bad", "upset", "unhappy"]),
       ("love", ["love", "heart", "adore", "cherish"]),
       ("excited", ["excited", "wow", "amazing", "thrilled"]),
       ("greeting", ["hello", "hi", "hey", "greetings"])]
      ("happy", ["happy", "joy", "good", "great", "awesome"])
      (by decide) (by decide) (by decide)).2
  · exact (detect_sentiment_first_match "so sad"
      [("happy", ["happy", "joy", "good", "great", "awesome"])]
      [("love", ["love", "heart", "adore", "cherish"]),
       ("excited", ["excited", "wow", "amazing", "thrilled"]),
       ("greeting", ["hello", "hi", "hey", "greetings"])]
      ("sad", ["sad", "bad", "upset", "unhappy"])
      (by decide) (by decide) (by decide)).2

/-- C7: on the generation path the response is split on whitespace into
non-empty tokens with order preserved, and the suggestion is built from
the first 15 tokens: for a response splitting into 18 tokens the
returned suggestion holds exactly the first 15 of them, in order. -/
theorem generation_path_truncates (gen : String → Except String String)
    (message response : String)
    (hgen : gen (mkPrompt (detect_sentiment message) message) =
      Except.ok response)
    (hlen : (pySplit (pyStrip response)).length = 18) :
    (∀ t ∈ pySplit (pyStrip response), t ≠ "") ∧
    suggest_emojis gen message =
      Except.ok ⟨(pySplit (pyStrip response)).take 15, message⟩ ∧
    ((pySplit (pyStrip response)).take 15).length = 15 := by
  have htake : ((pySplit (pyStrip response)).take 15).length = 15 := by
    rw [List.length_take, hlen]
    rfl
  refine ⟨fun t ht => pySplit_ne_empty (pyStrip response) t ht, ?_, htake⟩
  have h1 : ((pySplit (pyStrip response)).take 15).take 20 =
      (pySplit (pyStrip response)).take 15 :=
    List.take_of_length_le (by rw [htake]; omega)
  have hattempt : attempt_generate gen message =
      Except.ok ⟨(pySplit (pyStrip response)).take 15, message⟩ := by
    unfold attempt_generate
    rw [hgen]
    show mkEmojiSuggestion ((pySplit (pyStrip response)).take 15) message = _
    rw [mk_ok_of_three_le _ _ (by rw [htake]; omega), h1]
  unfold suggest_emojis
  rw [hattempt]

/-- C7 witness: a stub client returning 18 single-letter tokens yields
the first 15 of them. -/
theorem generation_path_truncates_witness :
    suggest_emojis (fun _ => Except.ok "a b c d e f g h i j k l m n o p q r")
        "hi there" =
      Except.ok
        ⟨(pySplit (pyStrip "a b c d e f g h i j k l m n o p q r")).take 15,
         "hi there"⟩ ∧
    (pySplit (pyStrip "a b c d e f g h i j k l m n o p q r")).take 15 =
      ["a", "b", "c", "d", "e", "f", "g", "h", "i", "j", "k", "l", "m",
       "n", "o"] :=
  ⟨((generation_path_truncates
      (fun _ => Except.ok "a b c d e f g h i j k l m n o p q r") "hi there"
      "a b c d e f g h i j k l m n o p q r" rfl (by decide)).2).1,
   by decide⟩

/-- C8: when the generation client fails on every call,
`suggest_emojis "I am so happy today"` propagates no exception and
returns the library entry for the happy category together with the
unchanged message. -/
theorem fallback_for_happy_message (gen : String → Except String String)
    (hfail : ∀ p, ∃ e, gen p = Except.error e) :
    suggest_emojis gen "I am so happy today" =
      Except.ok ⟨happy_emojis, "I am so happy today"⟩ ∧
    libLookup "happy" = some happy_emojis := by
  obtain ⟨e, he⟩ := hfail
    (mkPrompt (detect_sentiment "I am so happy today") "I am so happy today")
  have hattempt : attempt_generate gen "I am so happy today" =
      Except.error e := by
    unfold attempt_generate
    rw [he]
  refine ⟨?_, rfl⟩
  unfold suggest_emojis
  rw [hattempt]
  rfl

/-- C8 witness: a stub client that always raises. -/
theorem fallback_for_happy_message_witness :
    suggest_emojis (fun _ => Except.error "boom") "I am so happy today" =
      Except.ok ⟨happy_emojis, "I am so happy today"⟩ :=
  (fallback_for_happy_message (fun _ => Except.error "boom")
    (fun _ => ⟨"boom", rfl⟩)).1

/-- Unfolding of `generate` on a delivered response. -/
theorem generate_response (s : Nat) (b : Option Json) :
    generate (HttpOutcome.response s b) =
      if raiseForStatusFails s then
        Except.error ("API request failed: HTTP error status " ++ toString s)
      else
        parseBody b := rfl

/-- Unfolding of `parseBody` on a valid JSON body. -/
theorem parseBody_some (j : Json) :
    parseBody (some j) =
      match extractText j with
      | none => Except.error
          "API request failed: missing candidates, content, parts or text"
      | some t => Except.ok t := rfl

/-- A response body with the expected
`candidates[0].content.parts[0].text` shape. -/
def wellFormedBody : Json :=
  Json.obj [("candidates", Json.arr [Json.obj [("content",
    Json.obj [("parts", Json.arr [Json.obj [("text", Json.str "hello")]])])]])]

/-- C9 counterexample: a status-300 response is not 2xx, yet with a
well-shaped body `generate` succeeds — `raise_for_status` only raises
for 4xx/5xx, so "any non-2xx status is a failure" does not hold. -/
theorem generate_redirect_status_succeeds :
    generate (HttpOutcome.response 300 (some wellFormedBody)) =
      Except.ok (Json.str "hello") ∧
    ¬ (200 ≤ 300 ∧ 300 < 300) :=
  ⟨rfl, by omega⟩

/-- C9 (amended): `generate` fails exactly when the exchange goes wrong
— a transport/timeout error, an HTTP error status in 400..599, a body
that is not valid JSON, or a body lacking the expected nested
`candidates[0].content.parts[0].text` shape — and every failure is the
single error kind carrying a cause string; on a non-error status with
the expected shape it returns that text field. -/
theorem generate_failure_conditions (outcome : HttpOutcome) :
    ((∃ e, generate outcome = Except.error e) ↔
      (∃ c, outcome = HttpOutcome.transportError c) ∨
      (∃ s b, outcome = HttpOutcome.response s b ∧
        ((400 ≤ s ∧ s < 600) ∨ b = none ∨
          ∃ j, b = some j ∧ extractText j = none))) ∧
    (∀ s j t, outcome = HttpOutcome.response s (some j) →
      ¬ (400 ≤ s ∧ s < 600) → extractText j = some t →
      generate outcome = Except.ok t) := by
  have hrfsf : ∀ s : Nat, ¬ (400 ≤ s ∧ s < 600) →
      raiseForStatusFails s = false := by
    intro s hs
    unfold raiseForStatusFails
    rcases Nat.lt_or_ge s 400 with h | h
    · rw [decide_eq_false (by omega), Bool.false_and]
    · rw [(by exact decide_eq_false (by omega) : decide (s < 600) = false),
        Bool.and_false]
  have hrfst : ∀ s : Nat, 400 ≤ s ∧ s < 600 →
      raiseForStatusFails s = true := by
    intro s hs
    unfold raiseForStatusFails
    rw [decide_eq_true hs.1, decide_eq_true hs.2, Bool.and_self]
  constructor
  · cases outcome with
    | transportError c =>
        constructor
        · intro _
          exact Or.inl ⟨c, rfl⟩
        · intro _
          exact ⟨"API request failed: " ++ c, rfl⟩
    | response s b =>
        constructor
        · rintro ⟨e, he⟩
          refine Or.inr ⟨s, b, rfl, ?_⟩
          by_cases hs : 400 ≤ s ∧ s < 600
          · exact Or.inl hs
          · rw [generate_response, hrfsf s hs, if_neg (by simp)] at he
            cases b with
            | none => exact Or.inr (Or.inl rfl)
            | some j =>
                cases hx : extractText j with
                | none => exact Or.inr (Or.inr ⟨j, rfl, hx⟩)
                | some t =>
                    rw [parseBody_some, hx] at he
                    exact Except.noConfusion he
        · intro h
          rcases h with ⟨c, hc⟩ | ⟨s2, b2, heq, hcond⟩
          · exact absurd hc (by simp)
          · cases heq
            rcases hcond with hs | hb | ⟨j, hb, hx⟩
            · refine ⟨"API request failed: HTTP error status " ++ toString s, ?_⟩
              rw [generate_response, hrfst s hs, if_pos rfl]
            · subst hb
              cases hrs : raiseForStatusFails s with
              | true =>
                  refine ⟨"API request failed: HTTP error status " ++
                    toString s, ?_⟩
                  rw [generate_response, hrs, if_pos rfl]
              | false =>
                  refine ⟨"API request failed: response body is not valid JSON",
                    ?_⟩
                  rw [generate_response, hrs, if_neg (by simp)]
                  rfl
            · subst hb
              cases hrs : raiseForStatusFails s with
              | true =>
                  refine ⟨"API request failed: HTTP error status " ++
                    toString s, ?_⟩
                  rw [generate_response, hrs, if_pos rfl]
              | false =>
                  refine
                    ⟨"API request failed: missing candidates, content, parts or text",
                     ?_⟩
                  rw [generate_response, hrs, if_neg (by simp),
                    parseBody_some, hx]
  · rintro s j t heq hs hx
    subst heq
    rw [generate_response, hrfsf s hs, if_neg (by simp), parseBody_some, hx]

/-- C9 witness: a 200 response with the expected shape returns the text
field. -/
theorem generate_failure_conditions_witness :
    generate (HttpOutcome.response 200 (some wellFormedBody)) =
      Except.ok (Json.str "hello") :=
  (generate_failure_conditions
      (HttpOutcome.response 200 (some wellFormedBody))).2 200 wellFormedBody
    (Json.str "hello") rfl (by omega) rfl

/-- C10: the library lookup used by the fallback path is totalized by a
default — any sentiment value with no `emoji_library` entry (in
particular `"confused"`, which has none) gets the neutral list — so a
message classified as confused receives the neutral fallback emojis. -/
theorem get_emojis_defaults_to_neutral (s message : String)
    (gen : String → Except String String)
    (hmiss : libLookup s = none)
    (hfail : ∀ p, ∃ e, gen p = Except.error e)
    (hconf : detect_sentiment message = "confused") :
    get_emojis s = neutral_emojis ∧
    libLookup "confused" = none ∧
    suggest_emojis gen message = Except.ok ⟨neutral_emojis, message⟩ := by
  refine ⟨by unfold get_emojis; rw [hmiss]; rfl, rfl, ?_⟩
  obtain ⟨e, he⟩ := hfail (mkPrompt (detect_sentiment message) message)
  have hattempt : attempt_generate gen message = Except.error e := by
    unfold attempt_generate
    rw [he]
  unfold suggest_emojis
  rw [hattempt]
  show mkEmojiSuggestion (get_emojis (detect_sentiment message)) message = _
  rw [hconf]
  rfl

/-- C10 witness: `"wat is dis?"` classifies as confused and, with an
always-failing client, receives the neutral fallback emojis. -/
theorem get_emojis_defaults_to_neutral_witness :
    get_emojis "confused" = neutral_emojis ∧
    libLookup "confused" = none ∧
    suggest_emojis (fun _ => Except.error "down") "wat is dis?" =
      Except.ok ⟨neutral_emojis, "wat is dis?"⟩ :=
  get_emojis_defaults_to_neutral "confused" "wat is dis?"
    (fun _ => Except.error "down") rfl (fun _ => ⟨"down", rfl⟩) (by decide)

end EmojAI
